import Mathlib

/-!
Verification of the load-generator scripts of the repository
(`scripts/load_test.py` and `locustfile.py`), against its design document.

Shallow embedding of the two Python source files.  Python floats are
modelled as exact rationals (`ℚ`); Python integers as `ℕ`/`ℤ`.  Random
draws (`random.gauss`, `random.uniform`, `random.random`, `random.randint`,
`random.choice`) are modelled as explicit input parameters; the interval
guarantees of `uniform`/`random` become hypotheses of the theorems.
Python code that can raise (`ZeroDivisionError`, list indexing, network
exceptions) is modelled with `Option`: `none` means the Python expression
raises.
-/

namespace LoadTest

/-! Constants (`scripts/load_test.py`, lines 18–20, 28). -/

/-- Constant `RPS_TARGET = 1000` (line 18). -/
def RPS_TARGET : ℚ := 1000

/-- Constant `DURATION = 300` (line 19). -/
def DURATION : ℚ := 300

/-- Constant `THREADS = 50` (line 20). -/
def THREADS : ℕ := 50

/-- Constant `base_rps = 100.0` inside `generate_metric` (line 28). -/
def BASE_RPS : ℚ := 100

/-! Data model. -/

/-- Payload built by the generators: `{timestamp, cpu, rps, device_id}`. -/
structure Sample where
  timestamp : ℤ
  cpu : ℚ
  rps : ℚ
  device_id : String
  deriving Repr, DecidableEq

/-! Sample generator of the standalone driver (`generate_metric`, lines 22–40). -/

/-- Random draws consumed by one call of `generate_metric`, in the order
the Python code consumes them:
`deviceN = random.randint(1, 100)`, `g1 = random.gauss(0, 20)`,
`roll = random.random()`, `g2 = random.gauss(0, 100)`,
`cpu = random.uniform(0, 100)`. -/
structure GenDraws where
  deviceN : ℕ
  g1 : ℚ
  roll : ℚ
  g2 : ℚ
  cpu : ℚ
  deriving Repr, DecidableEq

/-- Function `generate_metric(device_id=None)` (lines 22–40): baseline 100
plus `gauss(0,20)`; when `random.random() < 0.05` the draw is replaced by
`base_rps + gauss(0,100) * 3`; the result dict has `cpu = uniform(0,100)`
and `rps = max(0, rps)`. `now` is `int(time.time())`. -/
def generate_metric (now : ℤ) (d : GenDraws) (device_id : Option String) : Sample :=
  let did := device_id.getD ("device_" ++ toString d.deviceN)
  let rps0 := BASE_RPS + d.g1
  let rps := if d.roll < 5 / 100 then BASE_RPS + d.g2 * 3 else rps0
  { timestamp := now, cpu := d.cpu, rps := max 0 rps, device_id := did }

/-! Request executor (`send_metric`, lines 42–53). -/

/-- Possible outcomes of the `requests.post` call inside `send_metric`:
either a response arrived (with a status code and
`response.elapsed.total_seconds()`), or some exception (timeout, connection
error, …) was raised. -/
inductive HttpResult where
  | response (status : ℕ) (elapsed : ℚ)
  | exn
  deriving Repr, DecidableEq

/-- Function `send_metric()` (lines 42–53): returns
`(response.status_code == 200, response.elapsed.total_seconds())` on a
response, and `(False, 0)` when any exception is caught.  The embedding is a
total function: the `try/except` catches every exception, so `send_metric`
never raises to its caller. -/
def send_metric (r : HttpResult) : Bool × ℚ :=
  match r with
  | .response s e => (decide (s = 200), e)
  | .exn => (false, 0)

/-! Locust generators (`locustfile.py`). -/

/-- Per-user state set in `MetricsUser.on_start` (lines 17–20):
`device_id = f"device_{randint(1,1000)}"`, `base_rps = uniform(80, 120)`. -/
structure LocustUser where
  device_id : String
  base_rps : ℚ
  deriving Repr, DecidableEq

/-- Method `MetricsUser.on_start` (lines 17–20); `n` is the
`randint(1, 1000)` draw and `base` the `uniform(80, 120)` draw. -/
def locust_on_start (n : ℕ) (base : ℚ) : LocustUser :=
  { device_id := "device_" ++ toString n, base_rps := base }

/-- Metric built by the normal task `MetricsUser.send_metric`
(lines 28–34): `cpu = uniform(0,100)`, `rps = max(0, base_rps + gauss(0,15))`.
`g` is the `gauss(0, 15)` draw, `cpu` the `uniform(0, 100)` draw. -/
def locust_normal_metric (u : LocustUser) (now : ℤ) (cpu g : ℚ) : Sample :=
  { timestamp := now, cpu := cpu, rps := max 0 (u.base_rps + g), device_id := u.device_id }

/-- Draw `anomaly_type = random.choice(["spike", "drop"])` (line 54). -/
inductive AnomalyType where
  | spike
  | drop
  deriving Repr, DecidableEq

/-- Rate value computed by `MetricsUser.send_anomalous_metric` (lines 54–59):
spike branch `base_rps + uniform(150, 300)`, drop branch
`max(0, base_rps - uniform(100, 200))`.  `uSpike` is the `uniform(150,300)`
draw, `uDrop` the `uniform(100,200)` draw. -/
def locust_anomalous_rps (u : LocustUser) (t : AnomalyType) (uSpike uDrop : ℚ) : ℚ :=
  match t with
  | .spike => u.base_rps + uSpike
  | .drop => max 0 (u.base_rps - uDrop)

/-- Metric built by `MetricsUser.send_anomalous_metric` (lines 53–66). -/
def locust_anomalous_metric (u : LocustUser) (t : AnomalyType) (uSpike uDrop : ℚ)
    (now : ℤ) (cpu : ℚ) : Sample :=
  { timestamp := now, cpu := cpu, rps := locust_anomalous_rps u t uSpike uDrop,
    device_id := u.device_id }

/-! Driver prelude (`run_load_test`, lines 64–94). -/

/-- Pacing interval `request_interval = 1.0 / (RPS_TARGET / THREADS)`
(line 73), for general parameters in place of the two constants.  In Python,
`threads = 0` raises `ZeroDivisionError` at `rps / threads`, and `rps = 0`
makes `rps / threads` equal to `0.0` so that `1.0 / 0.0` raises; both are
modelled as `none`. -/
def pacing_interval (rps : ℚ) (threads : ℕ) : Option ℚ :=
  if threads = 0 then none
  else if rps / (threads : ℚ) = 0 then none
  else some (1 / (rps / (threads : ℚ)))

/-- Whether the driver reaches the `ThreadPoolExecutor` block (line 93) —
i.e. spawns its workers — which happens exactly when the pacing-interval
computation on line 73 did not raise: nothing between line 64 and line 93
inspects the duration or any other configuration value. -/
def driver_spawns_workers (duration rps : ℚ) (threads : ℕ) : Bool :=
  let _ := duration
  (pacing_interval rps threads).isSome

/-- Worker loop-entry guard `while time.time() < end_time` (line 79),
evaluated at loop entry where `time.time() = now` and
`end_time = start_time + duration` (line 65). -/
def worker_enters_loop (now end_time : ℚ) : Bool :=
  decide (now < end_time)

/-! Worker loop and aggregation (`worker`, lines 75–96). -/

/-- Shared mutable run state of `run_load_test` (lines 67–70):
`total_requests`, `successful_requests`, `failed_requests`, `latencies`. -/
structure AggState where
  total : ℕ
  successful : ℕ
  failed : ℕ
  latencies : List ℚ
  deriving Repr, DecidableEq

/-- Zero-initialized aggregate state (lines 67–70). -/
def initState : AggState :=
  { total := 0, successful := 0, failed := 0, latencies := [] }

/-- One iteration of the worker loop body (lines 80–86): one `send_metric`
outcome `o = (success, latency)` increments `total_requests`; on success it
increments `successful_requests` and appends `latency * 1000` to the worker's
local list `loc`; otherwise it increments `failed_requests`. -/
def workerStep (st : AggState) (loc : List ℚ) (o : Bool × ℚ) : AggState × List ℚ :=
  let st1 := { st with total := st.total + 1 }
  if o.1 then ({ st1 with successful := st1.successful + 1 }, loc ++ [o.2 * 1000])
  else ({ st1 with failed := st1.failed + 1 }, loc)

/-- Whole worker loop (`worker`, lines 75–90) over the list of outcomes its
`send_metric` calls produced, threading the shared state and the local
latency list (the source starts the local list at `[]`, line 77). -/
def workerRun (p : AggState × List ℚ) (outcomes : List (Bool × ℚ)) : AggState × List ℚ :=
  outcomes.foldl (fun q o => workerStep q.1 q.2 o) p

/-- Complete run: each worker executes its loop against the shared counters
and then, at `latencies.extend(future.result())` (lines 93–96), its local
list is appended to the shared `latencies`.  `ws` lists, per worker, the
outcomes of that worker's `send_metric` calls. -/
def runWorkers (st : AggState) (ws : List (List (Bool × ℚ))) : AggState :=
  ws.foldl
    (fun st outs =>
      let q := workerRun (st, []) outs
      { q.1 with latencies := q.1.latencies ++ q.2 })
    st

/-! Summary statistics (`run_load_test`, lines 98–116). -/

/-- Success-rate expression `successful_requests / total_requests * 100`
(line 107).  In Python this raises `ZeroDivisionError` when
`total_requests == 0`, modelled as `none`. -/
def success_rate (successful total : ℕ) : Option ℚ :=
  if total = 0 then none else some ((successful : ℚ) / (total : ℚ) * 100)

/-- Python `sorted(latencies)` (lines 112–114): ascending sort. -/
def sortedLat (l : List ℚ) : List ℚ :=
  l.insertionSort (· ≤ ·)

/-- Median index `len(latencies) // 2` (line 112). -/
def medianIdx (n : ℕ) : ℕ := n / 2

/-- P95 index `int(len(latencies) * 0.95)` (line 113), with the float
product read exactly: `⌊n * 95 / 100⌋`. -/
def p95Idx (n : ℕ) : ℕ := n * 95 / 100

/-- P99 index `int(len(latencies) * 0.99)` (line 114): `⌊n * 99 / 100⌋`. -/
def p99Idx (n : ℕ) : ℕ := n * 99 / 100

/-- Arithmetic mean `mean(latencies)` (line 111). -/
def latMean (l : List ℚ) : ℚ :=
  l.sum / (l.length : ℚ)

/-- Median lookup `sorted(latencies)[len(latencies)//2]` (line 112); `none`
models an `IndexError`. -/
def latMedian (l : List ℚ) : Option ℚ :=
  (sortedLat l)[medianIdx l.length]?

/-- P95 lookup `sorted(latencies)[int(len(latencies)*0.95)]` (line 113). -/
def latP95 (l : List ℚ) : Option ℚ :=
  (sortedLat l)[p95Idx l.length]?

/-- P99 lookup `sorted(latencies)[int(len(latencies)*0.99)]` (line 114). -/
def latP99 (l : List ℚ) : Option ℚ :=
  (sortedLat l)[p99Idx l.length]?

/-- Square of `stdev(latencies)` (line 116): the sample variance
`Σ (x - mean)² / (n - 1)`.  The source prints its square root; since the
root is irrational in general, the embedding carries the variance — the
claims about `stdev` concern only when it is reported. -/
def sampleVariance (l : List ℚ) : ℚ :=
  (l.map (fun x => (x - latMean l) ^ 2)).sum / ((l.length : ℚ) - 1)

/-- Latency block of the report (lines 109–116). -/
structure LatStats where
  mean : ℚ
  median : Option ℚ
  p95 : Option ℚ
  p99 : Option ℚ
  stdevSq : Option ℚ
  deriving Repr, DecidableEq

/-- Latency statistics the summary emits (lines 109–116): the whole block is
guarded by `if latencies:` (line 109) and the standard deviation additionally
by `if len(latencies) > 1:` (line 115). -/
def latencyStats (l : List ℚ) : Option LatStats :=
  if l.isEmpty then none
  else some
    { mean := latMean l
      median := latMedian l
      p95 := latP95 l
      p99 := latP99 l
      stdevSq := if 1 < l.length then some (sampleVariance l) else none }

/-- Anomalous rate-value shape that the design document ascribes to the
standalone driver (formalised from the document's words, for comparison with
`generate_metric`): either a spike `baseline + uniform(150, 300)`, or an
upward ("sharp upward spike") Gaussian perturbation — a value strictly above
the baseline —, or a drop `max(0, baseline - uniform(100, 200))`. -/
def ClaimAnomalousRps (v : ℚ) : Prop :=
  (∃ u, 150 ≤ u ∧ u ≤ 300 ∧ v = BASE_RPS + u) ∨
  BASE_RPS < v ∨
  (∃ u, 100 ≤ u ∧ u ≤ 200 ∧ v = max 0 (BASE_RPS - u))

/-! Theorems.  Helper lemmas first, then one theorem per claim of the design
document, each with its witness or counterexample. -/

/-- Helper: over one worker's loop, the shared `latencies` is untouched, the
iteration count is added to `total`, it is split between `successful` and
`failed`, and the local list grows by exactly the number of successes. -/
theorem workerRun_stats (outs : List (Bool × ℚ)) (st : AggState) (loc : List ℚ) :
    (workerRun (st, loc) outs).1.latencies = st.latencies ∧
    (workerRun (st, loc) outs).1.total = st.total + outs.length ∧
    (workerRun (st, loc) outs).1.successful + (workerRun (st, loc) outs).1.failed
      = st.successful + st.failed + outs.length ∧
    (workerRun (st, loc) outs).2.length + st.successful
      = loc.length + (workerRun (st, loc) outs).1.successful := by
  induction outs generalizing st loc with
  | nil => simp [workerRun]
  | cons o rest ih =>
    have hstep : workerRun (st, loc) (o :: rest)
        = workerRun (workerStep st loc o) rest := by
      simp [workerRun, List.foldl_cons]
    rw [hstep]
    rcases o with ⟨b, lat⟩
    cases b with
    | false =>
      rw [show workerStep st loc (false, lat)
          = ({ st with total := st.total + 1, failed := st.failed + 1 }, loc) from rfl]
      obtain ⟨e1, e2, e3, e4⟩ :=
        ih { st with total := st.total + 1, failed := st.failed + 1 } loc
      dsimp only at e1 e2 e3 e4
      refine ⟨e1, ?_, ?_, ?_⟩ <;> (try simp only [List.length_cons]) <;> omega
    | true =>
      rw [show workerStep st loc (true, lat)
          = ({ st with total := st.total + 1, successful := st.successful + 1 },
             loc ++ [lat * 1000]) from rfl]
      obtain ⟨e1, e2, e3, e4⟩ :=
        ih { st with total := st.total + 1, successful := st.successful + 1 }
          (loc ++ [lat * 1000])
      dsimp only at e1 e2 e3 e4
      simp only [List.length_append, List.length_cons, List.length_nil] at e4
      refine ⟨e1, ?_, ?_, ?_⟩ <;> (try simp only [List.length_cons]) <;> omega

/-- Helper: the run-level invariants are preserved by every full run that
starts from a state satisfying them. -/
theorem runWorkers_inv (ws : List (List (Bool × ℚ))) (st : AggState)
    (h1 : st.total = st.successful + st.failed)
    (h2 : st.latencies.length = st.successful) :
    (runWorkers st ws).total
      = (runWorkers st ws).successful + (runWorkers st ws).failed ∧
    (runWorkers st ws).latencies.length = (runWorkers st ws).successful := by
  induction ws generalizing st with
  | nil => exact ⟨h1, h2⟩
  | cons outs rest ih =>
    have hstep : runWorkers st (outs :: rest)
        = runWorkers
            { (workerRun (st, []) outs).1 with
              latencies := (workerRun (st, []) outs).1.latencies
                ++ (workerRun (st, []) outs).2 } rest := by
      simp [runWorkers, List.foldl_cons]
    rw [hstep]
    obtain ⟨e1, e2, e3, e4⟩ := workerRun_stats outs st []
    simp only [List.length_nil] at e4
    apply ih <;> dsimp only <;> (try simp only [List.length_append, e1]) <;> omega

/-- C1 (counterexample): with `total_requests = 0` the success-rate
expression on line 107 is a division by zero — in Python a
`ZeroDivisionError`, not a reported value.  The claim that the summary then
still reports a defined success rate is therefore false of the code. -/
theorem success_rate_zero_total_raises : success_rate 0 0 = none := rfl

/-- C1 (amended): the summary computes the success rate as
`successful_requests / total_requests * 100` with no divide-by-zero guard:
for `total_requests ≠ 0` it reports that value, and for
`total_requests == 0` the computation raises `ZeroDivisionError`. -/
theorem success_rate_spec (s t : ℕ) :
    (t = 0 → success_rate s t = none) ∧
    (t ≠ 0 → success_rate s t = some ((s : ℚ) / (t : ℚ) * 100)) := by
  constructor <;> intro h <;> simp [success_rate, h]

/-- Witness for `success_rate_spec` at `successful = 3`, `total = 4` and at
`total = 0`. -/
theorem success_rate_spec_witness :
    success_rate 3 4 = some ((3 : ℚ) / 4 * 100) ∧ success_rate 3 0 = none :=
  ⟨(success_rate_spec 3 4).2 (by decide), (success_rate_spec 3 0).1 rfl⟩

/-- C2: for every non-empty latency collection the summary sorts ascending
and indexes without interpolation — median at `⌊n/2⌋`, P95 at `⌊n·0.95⌋`,
P99 at `⌊n·0.99⌋` — and on `[10, 20, 30, 40, 50]` this yields median 30,
P95 50 and P99 50. -/
theorem percentile_policy (l : List ℚ) (h : l ≠ []) :
    (sortedLat l).Sorted (· ≤ ·) ∧ (sortedLat l).Perm l ∧
    latMedian l = (sortedLat l)[l.length / 2]? ∧
    latP95 l = (sortedLat l)[l.length * 95 / 100]? ∧
    latP99 l = (sortedLat l)[l.length * 99 / 100]? ∧
    latMedian [10, 20, 30, 40, 50] = some 30 ∧
    latP95 [10, 20, 30, 40, 50] = some 50 ∧
    latP99 [10, 20, 30, 40, 50] = some 50 :=
  ⟨List.sorted_insertionSort _ l, List.perm_insertionSort _ l,
   rfl, rfl, rfl, by decide, by decide, by decide⟩

/-- Witness for `percentile_policy` at the collection `[10, 20, 30, 40, 50]`. -/
theorem percentile_policy_witness :
    latMedian [10, 20, 30, 40, 50] = some 30 ∧
    latP95 [10, 20, 30, 40, 50] = some 50 ∧
    latP99 [10, 20, 30, 40, 50] = some 50 :=
  ⟨(percentile_policy [10, 20, 30, 40, 50] (by decide)).2.2.2.2.2.1,
   (percentile_policy [10, 20, 30, 40, 50] (by decide)).2.2.2.2.2.2.1,
   (percentile_policy [10, 20, 30, 40, 50] (by decide)).2.2.2.2.2.2.2⟩

/-- C3: after all workers have joined,
`total_requests = successful_requests + failed_requests` and
`len(latencies) = successful_requests`; each worker-loop iteration
increments `total_requests` and exactly one of
`successful_requests`/`failed_requests`, and appends one latency exactly
when the request succeeded. -/
theorem aggregate_invariants (ws : List (List (Bool × ℚ))) :
    (runWorkers initState ws).total
      = (runWorkers initState ws).successful + (runWorkers initState ws).failed ∧
    (runWorkers initState ws).latencies.length = (runWorkers initState ws).successful ∧
    (∀ st loc (o : Bool × ℚ), (workerStep st loc o).1.total = st.total + 1) ∧
    (∀ st loc (o : Bool × ℚ), o.1 = true →
        (workerStep st loc o).1.successful = st.successful + 1 ∧
        (workerStep st loc o).1.failed = st.failed ∧
        (workerStep st loc o).2 = loc ++ [o.2 * 1000]) ∧
    (∀ st loc (o : Bool × ℚ), o.1 = false →
        (workerStep st loc o).1.failed = st.failed + 1 ∧
        (workerStep st loc o).1.successful = st.successful ∧
        (workerStep st loc o).2 = loc) := by
  obtain ⟨i1, i2⟩ := runWorkers_inv ws initState rfl rfl
  refine ⟨i1, i2, ?_, ?_, ?_⟩
  · intro st loc o
    rcases o with ⟨b, lat⟩
    cases b <;> rfl
  · rintro st loc ⟨b, lat⟩ hb
    cases b
    · simp at hb
    · exact ⟨rfl, rfl, rfl⟩
  · rintro st loc ⟨b, lat⟩ hb
    cases b
    · exact ⟨rfl, rfl, rfl⟩
    · simp at hb

/-- Witness for `aggregate_invariants` on a two-worker run with outcomes
`[(success, 2 s), (failure, 1 s)]` and `[(success, 3 s)]`, and for one
successful step from the initial state. -/
theorem aggregate_invariants_witness :
    (runWorkers initState [[(true, 2), (false, 1)], [(true, 3)]]).total
      = (runWorkers initState [[(true, 2), (false, 1)], [(true, 3)]]).successful
        + (runWorkers initState [[(true, 2), (false, 1)], [(true, 3)]]).failed ∧
    (workerStep initState [] (true, 2)).2 = [2000] := by
  refine ⟨(aggregate_invariants [[(true, 2), (false, 1)], [(true, 3)]]).1, ?_⟩
  have h := (aggregate_invariants []).2.2.2.1 initState [] (true, 2) rfl
  rw [h.2.2]
  norm_num

/-- C4 (counterexample): a non-HTTP-200 response does not yield latency 0 —
`send_metric` returns `response.elapsed` for every response, also a failed
one.  A 500 response with elapsed time 3 s yields the outcome
`(failure, 3)`, whose latency is not 0. -/
theorem send_metric_non200_latency :
    send_metric (.response 500 3) = (false, 3) ∧ (send_metric (.response 500 3)).2 ≠ 0 := by
  refine ⟨by decide, ?_⟩
  norm_num [send_metric]

/-- C4 (amended): `send_metric` succeeds iff the response status is exactly
200; timeouts and transport errors (the exception case) yield `(False, 0)`;
a response with any other status yields a failed outcome whose latency is
the response's elapsed time, not 0 (that latency is simply never recorded,
since only successes contribute a sample).  No exception propagates: the
embedding is a total function. -/
theorem send_metric_spec (r : HttpResult) :
    ((send_metric r).1 = true ↔ ∃ e, r = .response 200 e) ∧
    send_metric .exn = (false, 0) ∧
    (∀ s e, s ≠ 200 → send_metric (.response s e) = (false, e)) := by
  refine ⟨?_, rfl, ?_⟩
  · cases r with
    | response s e => simp [send_metric]
    | exn => simp [send_metric]
  · intro s e hs
    simp [send_metric, hs]

/-- Witness for `send_metric_spec`: a 404 response with elapsed 2 s. -/
theorem send_metric_spec_witness :
    send_metric (.response 404 2) = (false, 2) :=
  (send_metric_spec (.response 404 2)).2.2 404 2 (by decide)

/-- C5: every sample of the standalone generator, the Locust normal task and
the Locust anomalous task (both branches) satisfies `0 ≤ cpu ≤ 100` and
`rate_value ≥ 0`, given the ranges the uniform draws guarantee
(`cpu ∈ [0,100]`, `base_rps ∈ [80,120]`, spike offset `∈ [150,300]`). -/
theorem sample_bounds
    (now : ℤ) (d : GenDraws) (did : Option String)
    (hcpu : 0 ≤ d.cpu ∧ d.cpu ≤ 100)
    (u : LocustUser) (hbase : 80 ≤ u.base_rps ∧ u.base_rps ≤ 120)
    (cpu g : ℚ) (hcpu2 : 0 ≤ cpu ∧ cpu ≤ 100)
    (t : AnomalyType) (uSpike uDrop : ℚ)
    (hspike : 150 ≤ uSpike ∧ uSpike ≤ 300) :
    (0 ≤ (generate_metric now d did).cpu ∧ (generate_metric now d did).cpu ≤ 100
      ∧ 0 ≤ (generate_metric now d did).rps) ∧
    (0 ≤ (locust_normal_metric u now cpu g).cpu
      ∧ (locust_normal_metric u now cpu g).cpu ≤ 100
      ∧ 0 ≤ (locust_normal_metric u now cpu g).rps) ∧
    (0 ≤ (locust_anomalous_metric u t uSpike uDrop now cpu).cpu
      ∧ (locust_anomalous_metric u t uSpike uDrop now cpu).cpu ≤ 100
      ∧ 0 ≤ (locust_anomalous_metric u t uSpike uDrop now cpu).rps) := by
  refine ⟨⟨hcpu.1, hcpu.2, le_max_left 0 _⟩,
          ⟨hcpu2.1, hcpu2.2, le_max_left 0 _⟩,
          ⟨hcpu2.1, hcpu2.2, ?_⟩⟩
  cases t with
  | spike =>
    simp only [locust_anomalous_metric, locust_anomalous_rps]
    linarith [hbase.1, hspike.1]
  | drop =>
    exact le_max_left 0 _

/-- Witness for `sample_bounds` at concrete draws (normal standalone draw,
Locust spike with `base_rps = 100` and offset 200). -/
theorem sample_bounds_witness :
    0 ≤ (generate_metric 0 ⟨1, 0, 1, 0, 50⟩ none).rps ∧
    0 ≤ (locust_anomalous_metric (locust_on_start 1 100) .spike 200 150 0 50).rps := by
  have h := sample_bounds 0 ⟨1, 0, 1, 0, 50⟩ none (by norm_num)
    (locust_on_start 1 100) (by norm_num [locust_on_start]) 50 0 (by norm_num)
    .spike 200 150 (by norm_num)
  exact ⟨h.1.2.2, h.2.2.2.2⟩

/-- C6: for every positive target RPS and worker count, the per-worker
pacing interval `1.0 / (target_rps / worker_count)` of line 73 equals
`worker_count / target_rps` seconds. -/
theorem pacing_interval_eq (rps : ℚ) (threads : ℕ) (h1 : 0 < rps) (h2 : 0 < threads) :
    pacing_interval rps threads = some ((threads : ℚ) / rps) := by
  have ht : (threads : ℚ) ≠ 0 := Nat.cast_ne_zero.mpr h2.ne'
  have hd : rps / (threads : ℚ) ≠ 0 := div_ne_zero h1.ne' ht
  simp [pacing_interval, h2.ne', hd, one_div_div]

/-- Witness for `pacing_interval_eq` at the source's constants
`RPS_TARGET = 1000`, `THREADS = 50`. -/
theorem pacing_interval_eq_witness :
    pacing_interval RPS_TARGET THREADS = some ((THREADS : ℚ) / RPS_TARGET) :=
  pacing_interval_eq RPS_TARGET THREADS (by norm_num [RPS_TARGET]) (by norm_num [THREADS])

/-- C7 (counterexample): the driver rejects nothing.  With the non-positive
duration −1 (and the source's positive RPS 1000 and 50 threads) the workers
are still spawned — there is no validation of the configuration before the
worker pool starts. -/
theorem no_duration_validation :
    (-1 : ℚ) ≤ 0 ∧ driver_spawns_workers (-1) 1000 50 = true := by
  refine ⟨by norm_num, ?_⟩
  simp [driver_spawns_workers, pacing_interval]

/-- C7 (amended): the driver performs no configuration validation.  With any
nonzero RPS and worker count the workers are spawned regardless of the
duration; a non-positive duration merely makes each worker's loop guard
false immediately.  A zero worker count or zero target RPS instead raises an
unintended `ZeroDivisionError` at the pacing-interval computation (line 73),
before workers are spawned.  No failure during the run is fatal: every
`send_metric` outcome, success or failure, is merely counted. -/
theorem config_handling (d rps : ℚ) (threads : ℕ) (hr : rps ≠ 0) (ht : threads ≠ 0) :
    driver_spawns_workers d rps threads = true ∧
    (∀ rps2 : ℚ, pacing_interval rps2 0 = none) ∧
    (∀ t2 : ℕ, pacing_interval 0 t2 = none) ∧
    (∀ s : ℚ, d ≤ 0 → worker_enters_loop s (s + d) = false) ∧
    (∀ st loc (r : HttpResult),
        (workerStep st loc (send_metric r)).1.total = st.total + 1) := by
  refine ⟨?_, ?_, ?_, ?_, ?_⟩
  · have htq : (threads : ℚ) ≠ 0 := Nat.cast_ne_zero.mpr ht
    have hd : rps / (threads : ℚ) ≠ 0 := div_ne_zero hr htq
    simp [driver_spawns_workers, pacing_interval, ht, hd]
  · intro rps2
    simp [pacing_interval]
  · intro t2
    rcases eq_or_ne t2 0 with h | h <;> simp [pacing_interval, h]
  · intro s hd
    simp only [worker_enters_loop, decide_eq_false_iff_not, not_lt]
    linarith
  · intro st loc r
    rcases send_metric r with ⟨b, lat⟩
    cases b <;> rfl

/-- Witness for `config_handling` at duration −5, RPS 1000, 50 threads. -/
theorem config_handling_witness :
    driver_spawns_workers (-5) 1000 50 = true ∧
    worker_enters_loop 0 (0 + -5) = false := by
  have h := config_handling (-5) 1000 50 (by norm_num) (by norm_num)
  exact ⟨h.1, h.2.2.2.1 0 (by norm_num)⟩

/-- C8 (counterexample): the standalone driver's anomalous draw is not the
claimed spike-or-drop choice.  With anomaly roll 0 (< 0.05) and anomalous
Gaussian draw −10, `generate_metric` produces `rps = 70`: below the baseline
yet not the claimed clamped drop `max(0, 100 − uniform(100,200))`, and not a
spike of either claimed form. -/
theorem generate_metric_not_spike_drop :
    (generate_metric 0 ⟨1, 0, 0, -10, 50⟩ none).rps = 70 ∧ ¬ ClaimAnomalousRps 70 := by
  constructor
  · norm_num [generate_metric, BASE_RPS]
  · rintro (⟨u, h1, h2, h3⟩ | h | ⟨u, h1, h2, h3⟩)
    · rw [BASE_RPS] at h3; linarith
    · rw [BASE_RPS] at h; norm_num at h
    · rw [BASE_RPS] at h3
      rw [max_eq_left (by linarith : (100 : ℚ) - u ≤ 0)] at h3
      norm_num at h3

/-- C8 (amended): in the standalone driver each sample's rate value is the
baseline 100 plus a `gauss(0,20)` draw; with fixed probability 5 %
(`random() < 0.05`) that draw is replaced by `100 + 3·gauss(0,100)` — a
single symmetric Gaussian perturbation, with no spike/drop direction choice
and no `uniform(150,300)`/`uniform(100,200)` offsets (those exist only in
the Locust variant); the result is clamped to ≥ 0. -/
theorem generate_metric_rps_spec (now : ℤ) (d : GenDraws) (did : Option String) :
    (d.roll < 5 / 100 → (generate_metric now d did).rps = max 0 (BASE_RPS + d.g2 * 3)) ∧
    (¬ d.roll < 5 / 100 → (generate_metric now d did).rps = max 0 (BASE_RPS + d.g1)) := by
  constructor <;> intro h <;> simp [generate_metric, h]

/-- Witness for `generate_metric_rps_spec` on an anomalous draw (roll 0,
anomalous Gaussian −10 giving 70) and a normal draw (roll 1, Gaussian 2
giving 102). -/
theorem generate_metric_rps_spec_witness :
    (generate_metric 0 ⟨1, 2, 0, -10, 50⟩ none).rps = 70 ∧
    (generate_metric 0 ⟨1, 2, 1, -10, 50⟩ none).rps = 102 := by
  constructor
  · rw [(generate_metric_rps_spec 0 ⟨1, 2, 0, -10, 50⟩ none).1 (by norm_num)]
    norm_num [BASE_RPS]
  · rw [(generate_metric_rps_spec 0 ⟨1, 2, 1, -10, 50⟩ none).2 (by norm_num)]
    norm_num [BASE_RPS]

/-- C9: the summary omits the standard deviation when fewer than two
latencies were collected, and with an empty latency collection the whole
latency block (mean, median, P95, P99, stdev) is omitted rather than
computed. -/
theorem latencyStats_guards (l : List ℚ) :
    (l = [] → latencyStats l = none) ∧
    (l ≠ [] → l.length < 2 →
      latencyStats l = some { mean := latMean l, median := latMedian l,
                              p95 := latP95 l, p99 := latP99 l, stdevSq := none }) ∧
    (1 < l.length →
      latencyStats l = some { mean := latMean l, median := latMedian l,
                              p95 := latP95 l, p99 := latP99 l,
                              stdevSq := some (sampleVariance l) }) := by
  refine ⟨fun h => by simp [latencyStats, h], fun h1 h2 => ?_, fun h => ?_⟩
  · have : ¬ (1 < l.length) := by omega
    simp [latencyStats, List.isEmpty_iff, h1, this]
  · have h1 : l ≠ [] := by
      intro he
      rw [he] at h
      simp at h
    simp [latencyStats, List.isEmpty_iff, h1, h]

/-- Witness for `latencyStats_guards` on `[]`, `[5]` and `[5, 7]`. -/
theorem latencyStats_guards_witness :
    latencyStats ([] : List ℚ) = none ∧
    latencyStats [(5 : ℚ)] = some { mean := 5, median := some 5, p95 := some 5,
                                    p99 := some 5, stdevSq := none } ∧
    latencyStats [(5 : ℚ), 7] = some { mean := 6, median := some 7, p95 := some 7,
                                       p99 := some 7, stdevSq := some 2 } := by
  refine ⟨(latencyStats_guards []).1 rfl, ?_, ?_⟩
  · rw [(latencyStats_guards [5]).2.1 (by decide) (by decide)]
    norm_num [latMean, latMedian, latP95, latP99, sortedLat, medianIdx, p95Idx, p99Idx,
      List.insertionSort]
  · rw [(latencyStats_guards [5, 7]).2.2 (by decide)]
    norm_num [latMean, latMedian, latP95, latP99, sortedLat, medianIdx, p95Idx, p99Idx,
      sampleVariance, List.insertionSort, List.orderedInsert]

/-- C10: for every non-empty latency list of length `n`, the three summary
indices `⌊n/2⌋`, `⌊n·0.95⌋` and `⌊n·0.99⌋` are strictly below `n`, so the
percentile lookups into the sorted list never go out of range. -/
theorem percentile_indices_in_range (l : List ℚ) (h : l ≠ []) :
    medianIdx l.length < l.length ∧ p95Idx l.length < l.length ∧ p99Idx l.length < l.length ∧
    (latMedian l).isSome ∧ (latP95 l).isSome ∧ (latP99 l).isSome := by
  have hn : 0 < l.length := List.length_pos.mpr h
  have hlen : (sortedLat l).length = l.length := (List.perm_insertionSort _ l).length_eq
  have h1 : medianIdx l.length < l.length := by unfold medianIdx; omega
  have h2 : p95Idx l.length < l.length := by unfold p95Idx; omega
  have h3 : p99Idx l.length < l.length := by unfold p99Idx; omega
  refine ⟨h1, h2, h3, ?_, ?_, ?_⟩ <;>
    simp [latMedian, latP95, latP99, List.getElem?_eq_getElem, hlen, h1, h2, h3]

/-- Witness for `percentile_indices_in_range` at `[10, 20, 30]`. -/
theorem percentile_indices_in_range_witness :
    (latMedian [(10 : ℚ), 20, 30]).isSome ∧ (latP95 [(10 : ℚ), 20, 30]).isSome ∧
    (latP99 [(10 : ℚ), 20, 30]).isSome := by
  have h := percentile_indices_in_range [10, 20, 30] (by decide)
  exact ⟨h.2.2.2.1, h.2.2.2.2.1, h.2.2.2.2.2⟩

end LoadTest
